import Mathlib

/-!
Shallow embedding of the SSH session-management core of the repository
(`coinbase_agentkit/action_providers/ssh/`): connection parameters and their
validation, the host-trust rejection policy, the private-key loader, the
connection state machine (`connect`, `is_connected`, `execute`,
`reset_connection`), the connection pool, and the `ssh_add_host_key`
trust-store file operation.  Fallible operations return `Except`; the
outcomes of the underlying transport library (paramiko) are supplied
explicitly as environment values.
-/

namespace SSHSpec

/-- Associativity of string append, via the underlying character lists. -/
theorem strAppend_assoc (a b c : String) : a ++ b ++ c = a ++ (b ++ c) := by
  apply String.ext
  simp [String.data_append, List.append_assoc]

/-- The string `t` occurs contiguously inside `s`. -/
def ContainsStr (s t : String) : Prop := ∃ p q, s = p ++ t ++ q

theorem containsStr_refl (t : String) : ContainsStr t t :=
  ⟨"", "", by apply String.ext; simp [String.data_append]⟩

theorem containsStr_append_left {s t : String} (u : String) (h : ContainsStr s t) :
    ContainsStr (u ++ s) t := by
  obtain ⟨p, q, rfl⟩ := h
  exact ⟨u ++ p, q, by rw [strAppend_assoc, strAppend_assoc, strAppend_assoc]⟩

theorem containsStr_append_right {s t : String} (u : String) (h : ContainsStr s t) :
    ContainsStr (s ++ u) t := by
  obtain ⟨p, q, rfl⟩ := h
  exact ⟨p, q ++ u, by rw [strAppend_assoc, strAppend_assoc]⟩

/-- Python truthiness of an optional string field: `None` and `""` are falsy. -/
def pyTruthy : Option String → Bool
  | none => false
  | some s => s != ""

/-- Connection parameters, mirroring the pydantic model `SSHConnectionParams`
(fields `connection_id`, `host`, `username`, `password`, `private_key`,
`private_key_path`, `port`). -/
structure SSHConnectionParams where
  connection_id : String
  host : String
  username : String
  password : Option String := none
  private_key : Option String := none
  private_key_path : Option String := none
  port : Nat := 22
deriving Repr, DecidableEq

/-- The body of the validator `check_auth_method_provided`, read over the
model's field values: requires at least one truthy authentication field,
then a non-empty host, then a non-empty username; otherwise rejects with the
corresponding message.  In the source this function is decorated with an
outer `@classmethod` above `@model_validator(mode="after")`; pydantic v2
does not register a classmethod-wrapped validator proxy, so this body is
never invoked at construction — it is dead code recording the intent (see
`constructSSHConnectionParams` for what construction actually does). -/
def check_auth_method_provided (p : SSHConnectionParams) :
    Except String SSHConnectionParams :=
  if ¬(pyTruthy p.password ∨ pyTruthy p.private_key ∨ pyTruthy p.private_key_path) then
    .error "At least one authentication method must be provided (password, private_key, or private_key_path)"
  else if p.host = "" then
    .error "Host must be provided"
  else if p.username = "" then
    .error "Username must be provided"
  else
    .ok p

/-- Model of actually constructing `SSHConnectionParams(...)`: because the
`check_auth_method_provided` validator is never registered (its
`@classmethod` wrapper hides the validator proxy from pydantic v2),
construction of any well-typed field assignment succeeds unconditionally —
no authentication-method, host, or username check runs. -/
def constructSSHConnectionParams (p : SSHConnectionParams) :
    Except String SSHConnectionParams :=
  .ok p

/-- Error taxonomy of the ssh module: `SSHConnectionError`, `SSHKeyError`,
`UnknownHostKeyError` (a subclass of `SSHConnectionError` in the source), and
raw exceptions of the underlying transport library that propagate untyped. -/
inductive SSHError where
  | connectionError (msg : String)
  | keyError (msg : String)
  | unknownHostKeyError (msg : String)
  | rawError (msg : String)
deriving Repr, DecidableEq

/-- The message built by `CapturingRejectPolicy.missing_host_key` for an
unknown host key. -/
def missing_host_key_message (hostname key_type key_data : String) : String :=
  "Host key verification failed for " ++ hostname ++ ". Server sent:\n  " ++
    (key_type ++ " " ++ (key_data ++
      ("\n\nTo add this host key, use the ssh_add_host_key action with the following parameters:\n  host: " ++
        (hostname ++ ("\n  key: " ++ (key_data ++ ("\n  key_type: " ++ key_type)))))))

/-- Model of `CapturingRejectPolicy.missing_host_key`: the unknown-host-key
policy.  It never returns normally; it always raises `UnknownHostKeyError`
carrying the message above. -/
def missing_host_key (hostname key_type key_data : String) : Except SSHError Unit :=
  .error (.unknownHostKeyError (missing_host_key_message hostname key_type key_data))

/-- Outcome of one `key_class.from_private_key` attempt in the loader loop:
structural success with a credential, `PasswordRequiredException`,
`SSHException` with a message, or any other exception with a message. -/
inductive KeyOutcome where
  | ok (cred : Nat)
  | passwordRequired
  | sshException (msg : String)
  | otherError (msg : String)
deriving Repr, DecidableEq

/-- Outcomes of the four key classes tried by the loader, in source order
`[RSAKey, DSSKey, ECDSAKey, Ed25519Key]`. -/
structure KeyLoadEnv where
  rsa : KeyOutcome
  dss : KeyOutcome
  ecdsa : KeyOutcome
  ed25519 : KeyOutcome
deriving Repr, DecidableEq

/-- The attempt list of `_load_key_from_string`, in source order. -/
def keyAttempts (env : KeyLoadEnv) : List KeyOutcome :=
  [env.rsa, env.dss, env.ecdsa, env.ed25519]

/-- The loop of `_load_key_from_string`: walk the key classes in order,
returning the first structural success; `PasswordRequiredException` sets the
`password_required` flag and continues; `SSHException` records `last_error`
and continues; any other exception raises `SSHKeyError` immediately.  After
the loop, the `password_required` flag wins over `last_error`. -/
def loadKeyLoop : List KeyOutcome → Bool → Option String → Except String Nat
  | [], pwRequired, lastError =>
    if pwRequired then
      .error "Password-protected key provided but no password was given"
    else
      match lastError with
      | some e => .error ("Failed to load key from string: " ++ e)
      | none => .error "Key format not supported or invalid key data"
  | o :: rest, pwRequired, lastError =>
    match o with
    | .ok cred => .ok cred
    | .passwordRequired => loadKeyLoop rest true lastError
    | .sshException m => loadKeyLoop rest pwRequired (some m)
    | .otherError m => .error ("Failed to load key from string: " ++ m)

/-- Model of `SSHConnection._load_key_from_string`, with the outcome of each
key-class attempt supplied by `env`. -/
def load_key_from_string (env : KeyLoadEnv) : Except String Nat :=
  loadKeyLoop (keyAttempts env) false none

/-- The loop of `_load_key_from_file`: identical control flow to the string
loader, with file-specific messages (`FileNotFoundError` is folded into the
generic-exception branch, which carries the same message in the source). -/
def loadKeyFileLoop (path : String) : List KeyOutcome → Bool → Option String → Except String Nat
  | [], pwRequired, lastError =>
    if pwRequired then
      .error "Password-protected key file requires a password"
    else
      match lastError with
      | some e => .error ("Invalid key format in " ++ path ++ ": " ++ e)
      | none => .error ("Key format not supported or invalid key file " ++ path)
  | o :: rest, pwRequired, lastError =>
    match o with
    | .ok cred => .ok cred
    | .passwordRequired => loadKeyFileLoop path rest true lastError
    | .sshException m => loadKeyFileLoop path rest pwRequired (some m)
    | .otherError m => .error ("Failed to load key file " ++ path ++ ": " ++ m)

/-- Model of `SSHConnection._load_key_from_file`. -/
def load_key_from_file (path : String) (env : KeyLoadEnv) : Except String Nat :=
  loadKeyFileLoop path (keyAttempts env) false none

/-- First structural success among the attempts, if any. -/
def firstSuccess : List KeyOutcome → Option Nat
  | [] => none
  | .ok cred :: _ => some cred
  | _ :: rest => firstSuccess rest

/-- Whether some attempt reported that a passphrase is required. -/
def anyPasswordRequired (l : List KeyOutcome) : Bool :=
  l.any (fun o => o == .passwordRequired)

/-- Whether an outcome is the immediate-abort kind (an exception outside the
SSH layer). -/
def isOtherError : KeyOutcome → Bool
  | .otherError _ => true
  | _ => false

/-- Whether a loader error message is of the key-format kind (as opposed to
the passphrase-required kind). -/
def IsFormatErrorMsg (m : String) : Prop :=
  (∃ e, m = "Failed to load key from string: " ++ e) ∨
    m = "Key format not supported or invalid key data"

/-- State of one `SSHConnection`: the validated parameters, the `connected`
flag, the connection timestamp, and the opaque paramiko client handle
(`none` mirrors `self.ssh_client = None`). -/
structure SSHConnectionState where
  params : SSHConnectionParams
  connected : Bool := false
  connection_time : Option Nat := none
  ssh_client : Option Unit := none
deriving Repr, DecidableEq

/-- A freshly constructed `SSHConnection` (its `__init__`): disconnected,
no timestamp, no client. -/
def newConnection (params : SSHConnectionParams) : SSHConnectionState :=
  { params := params }

/-- Model of `SSHConnection.reset_connection`: clear the `connected` flag and
timestamp, close and drop the client handle. -/
def reset_connection (s : SSHConnectionState) : SSHConnectionState :=
  { s with connected := false, connection_time := none, ssh_client := none }

/-- Model of `SSHConnection.disconnect`, which just resets the connection. -/
def disconnect (s : SSHConnectionState) : SSHConnectionState :=
  reset_connection s

/-- Model of `SSHConnection._init_ssh_client`: install a fresh paramiko
client (host-key loading does not affect the modelled state). -/
def init_ssh_client (s : SSHConnectionState) : SSHConnectionState :=
  { s with ssh_client := some () }

/-- Model of `SSHConnection.is_connected`.  `probe` is the stripped stdout of
the `echo 1` liveness command, or `none` if that command raised.  With no
client or a cleared `connected` flag the answer is `false` with no side
effect; otherwise a probe result other than `"1"` resets the connection and
returns `false`. -/
def is_connected (s : SSHConnectionState) (probe : Option String) :
    Bool × SSHConnectionState :=
  if s.ssh_client = none then (false, s)
  else if ¬s.connected then (false, s)
  else if probe ≠ some "1" then (false, reset_connection s)
  else (true, s)

instance {ε α : Type} [DecidableEq ε] [DecidableEq α] : DecidableEq (Except ε α) :=
  fun x y =>
    match x, y with
    | .ok a, .ok b =>
      if h : a = b then isTrue (by rw [h]) else isFalse (by intro he; cases he; exact h rfl)
    | .error a, .error b =>
      if h : a = b then isTrue (by rw [h]) else isFalse (by intro he; cases he; exact h rfl)
    | .ok _, .error _ => isFalse (by intro he; cases he)
    | .error _, .ok _ => isFalse (by intro he; cases he)

/-- Outcome of `paramiko.SSHClient.connect`: success, the missing-host-key
policy firing (with the details it is given), or any other exception with
its message. -/
inductive TransportResult where
  | ok
  | unknownHost (hostname key_type key_data : String)
  | fail (msg : String)
deriving Repr, DecidableEq

/-- Environment for one `connect()` call: outcomes of the key-loading
attempts, existence of the key file, the transport handshake result, the
liveness-sentinel command's stdout (or the exception it raised), its stderr,
the clock, and the fallback key path from the process environment. -/
structure ConnectEnv where
  keyLoad : KeyLoadEnv
  fileExists : Bool
  transport : TransportResult
  sentinel : Except String String
  sentinelErr : String
  now : Nat
  defaultKeyPath : String
deriving Repr, DecidableEq

/-- The `ssh_client.connect(...)` step shared by the `connect_with_*`
helpers: an unknown host key makes the installed `CapturingRejectPolicy`
raise, which the helpers re-raise unchanged; any other exception is wrapped
into `SSHConnectionError` with the helper's message head. -/
def transportStep (s : SSHConnectionState) (env : ConnectEnv) (msgHead : String) :
    Except SSHError Unit × SSHConnectionState :=
  match env.transport with
  | .ok => (.ok (), s)
  | .unknownHost h kt kd =>
    (.error (.unknownHostKeyError (missing_host_key_message h kt kd)), s)
  | .fail m => (.error (.connectionError (msgHead ++ m)), s)

/-- Model of `SSHConnection.connect_with_password`: disconnect, initialize a
fresh client, then attempt the transport handshake. -/
def connect_with_password (s : SSHConnectionState) (env : ConnectEnv) :
    Except SSHError Unit × SSHConnectionState :=
  let s := disconnect s
  let s := init_ssh_client s
  transportStep s env "Failed to connect with password: "

/-- Model of `SSHConnection.connect_with_key`: disconnect, initialize a
fresh client, decode the key when it was passed as a string (raising
`SSHKeyError` on failure), then attempt the transport handshake. -/
def connect_with_key (s : SSHConnectionState) (env : ConnectEnv) (keyIsString : Bool) :
    Except SSHError Unit × SSHConnectionState :=
  let s := disconnect s
  let s := init_ssh_client s
  if keyIsString then
    match load_key_from_string env.keyLoad with
    | .error m => (.error (.keyError m), s)
    | .ok _ => transportStep s env "Failed to connect with key: "
  else
    transportStep s env "Failed to connect with key: "

/-- Model of `SSHConnection.connect_with_key_path`: check the file exists
(before any client is initialized), decode it via the file loader, then
delegate to `connect_with_key` with the already-loaded key object;
`SSHConnectionError` coming back from the delegate is re-wrapped with the
key-file message head, while `SSHKeyError` and `UnknownHostKeyError` pass
through. -/
def connect_with_key_path (s : SSHConnectionState) (env : ConnectEnv) (path : String) :
    Except SSHError Unit × SSHConnectionState :=
  if ¬env.fileExists then
    (.error (.keyError ("Key file not found at " ++ path)), s)
  else
    match load_key_from_file path env.keyLoad with
    | .error m => (.error (.keyError m), s)
    | .ok _ =>
      match connect_with_key s env false with
      | (.error (.connectionError m), s1) =>
        (.error (.connectionError ("Failed to connect with key file: " ++ m)), s1)
      | r => r

/-- The credential-path selection of `SSHConnection.connect`: password if
truthy, else in-memory key material, else a key file at the given or
fallback path. -/
def connectAuth (s : SSHConnectionState) (env : ConnectEnv) :
    Except SSHError Unit × SSHConnectionState :=
  if pyTruthy s.params.password then connect_with_password s env
  else if pyTruthy s.params.private_key then connect_with_key s env true
  else
    let path :=
      match s.params.private_key_path with
      | some p => if p ≠ "" then p else env.defaultKeyPath
      | none => env.defaultKeyPath
    connect_with_key_path s env path

/-- The body of `SSHConnection.connect`'s `try` block: select the credential
path from the parameters, perform the handshake, then run the liveness
sentinel `echo "Connection successful"` and compare its stripped stdout
against the expected text; a mismatch clears `connected` and raises
`SSHConnectionError` carrying the remote stderr, while success sets
`connected` and the timestamp. -/
def connectBody (s : SSHConnectionState) (env : ConnectEnv) :
    Except SSHError Unit × SSHConnectionState :=
  let (r, s) := connectAuth s env
  match r with
  | .error e => (.error e, s)
  | .ok () =>
    match env.sentinel with
    | .error m => (.error (.rawError m), s)
    | .ok out =>
      if out ≠ "Connection successful" then
        (.error (.connectionError ("Connection test failed: " ++ env.sentinelErr)),
          { s with connected := false })
      else
        (.ok (), { s with connected := true, connection_time := some env.now })

/-- Model of `SSHConnection.connect`: disconnect, run the body, and — only
for `UnknownHostKeyError` — reset the connection before re-raising. -/
def connect (s : SSHConnectionState) (env : ConnectEnv) :
    Except SSHError Unit × SSHConnectionState :=
  let b := connectBody (disconnect s) env
  match b.1 with
  | .error (.unknownHostKeyError m) =>
    (.error (.unknownHostKeyError m), reset_connection b.2)
  | _ => b

/-- Environment for one `execute()` call: the liveness probe's stripped
stdout (`none` if it raised), and the remote command's result — either the
message of a transport exception or `(exit_status, stdout, stderr)`. -/
structure ExecEnv where
  probe : Option String
  execRes : Except String (Int × String × String)
deriving Repr, DecidableEq

/-- The body of `execute`'s `try` block: the source's output policy over
exit status, stdout, stderr and `ignore_stderr`.  An error value is the
message of the `SSHConnectionError` raised inside the `try`. -/
def executeBody (cid : String) (exit_status : Int) (output error_output : String)
    (ig : Bool) : Except String String :=
  if error_output ≠ "" ∧ (ig ∨ exit_status = 0) then
    if output ≠ "" then .ok (output ++ "\n[stderr]: " ++ error_output)
    else .ok error_output
  else if exit_status ≠ 0 ∧ error_output ≠ "" then
    .error ("Command execution failed on " ++ cid ++ " (exit code " ++
      toString exit_status ++ "): " ++ error_output)
  else if exit_status ≠ 0 then
    .error ("Command execution failed on " ++ cid ++ " with exit code " ++
      toString exit_status)
  else if output = "" then .ok ""
  else .ok output

/-- Model of `SSHConnection.execute`: re-verify liveness via `is_connected`
(raising without state change if it fails), then run the command; any
exception inside the `try` — a transport fault or the non-zero-exit
`SSHConnectionError` — resets the connection and is re-raised wrapped in the
outer message. -/
def execute (s : SSHConnectionState) (env : ExecEnv) (ig : Bool) :
    Except SSHError String × SSHConnectionState :=
  let cid := s.params.connection_id
  let (alive, s) := is_connected s env.probe
  if ¬alive then
    (.error (.connectionError ("No active SSH connection for " ++ cid ++
      ". Please connect first.")), s)
  else
    let inner : Except String String :=
      match env.execRes with
      | .error m => .error m
      | .ok (exit_status, output, error_output) =>
        executeBody cid exit_status output error_output ig
    match inner with
    | .ok v => (.ok v, s)
    | .error m =>
      (.error (.connectionError ("Command execution failed on " ++ cid ++ ": " ++ m)),
        reset_connection s)

/-- Lookup in a Python dict modelled as an insertion-ordered association
list. -/
def dictGet {α : Type} (m : List (String × α)) (k : String) : Option α :=
  (m.find? (fun x => x.1 == k)).map (fun x => x.2)

/-- Assignment `m[k] = v` on a Python dict: update the entry in place if the
key is present, else append it. -/
def dictSet {α : Type} (m : List (String × α)) (k : String) (v : α) :
    List (String × α) :=
  if m.any (fun x => x.1 == k) then
    m.map (fun x => if x.1 == k then (k, v) else x)
  else
    m ++ [(k, v)]

/-- Deletion `del m[k]` on a Python dict. -/
def dictDel {α : Type} (m : List (String × α)) (k : String) : List (String × α) :=
  m.filter (fun x => x.1 != k)

/-- State of an `SSHConnectionPool`: the live connection registry, the bound,
and the retained parameters. -/
structure SSHConnectionPool where
  connections : List (String × SSHConnectionState) := []
  max_connections : Nat := 5
  connection_params : List (String × SSHConnectionParams) := []
deriving Repr, DecidableEq

/-- Model of `SSHConnectionPool.close_connection`: if the id is live,
disconnect the session, delete it from the registry (parameters are kept),
and return it; else return `none`. -/
def close_connection (p : SSHConnectionPool) (cid : String) :
    Option SSHConnectionState × SSHConnectionPool :=
  match dictGet p.connections cid with
  | none => (none, p)
  | some c =>
    (some (disconnect c), { p with connections := dictDel p.connections cid })

/-- The loop of `close_idle_connections`: iterate over a snapshot of the
registry, probing each session with `is_connected` and closing the ones
whose probe fails; counts the closed sessions. -/
def closeIdleLoop (env : String → Option String) :
    List (String × SSHConnectionState) → SSHConnectionPool → Nat →
      SSHConnectionPool × Nat
  | [], p, n => (p, n)
  | (cid, c) :: rest, p, n =>
    if (is_connected c (env cid)).1 then closeIdleLoop env rest p n
    else closeIdleLoop env rest (close_connection p cid).2 (n + 1)

/-- Model of `SSHConnectionPool.close_idle_connections`.  `env` gives each
session's liveness-probe output. -/
def close_idle_connections (p : SSHConnectionPool) (env : String → Option String) :
    SSHConnectionPool × Nat :=
  closeIdleLoop env p.connections p 0

/-- Model of `SSHConnectionPool.create_connection`: evict idle sessions,
enforce the bound, store the parameters under their id (overwriting any
prior entry), construct a new disconnected session, register and return
it. -/
def create_connection (p : SSHConnectionPool) (env : String → Option String)
    (params : SSHConnectionParams) :
    Except String SSHConnectionState × SSHConnectionPool :=
  let p := (close_idle_connections p env).1
  if p.connections.length ≥ p.max_connections then
    (.error ("Connection limit reached (" ++ toString p.max_connections ++ ")"), p)
  else
    let p := { p with
      connection_params := dictSet p.connection_params params.connection_id params }
    let c := newConnection params
    let p := { p with connections := dictSet p.connections params.connection_id c }
    (.ok c, p)

/-- An apostrophe, as used by the source's quoted error messages. -/
def quoteChar : String := String.singleton (Char.ofNat 39)

/-- Model of `SSHConnectionPool.get_connection`: return the live session if
present; else reconstruct from retained parameters (subject to the bound);
else raise not-found. -/
def get_connection (p : SSHConnectionPool) (env : String → Option String)
    (cid : String) : Except String SSHConnectionState × SSHConnectionPool :=
  match dictGet p.connections cid with
  | some c => (.ok c, p)
  | none =>
    match dictGet p.connection_params cid with
    | none =>
      (.error ("Connection ID " ++ quoteChar ++ cid ++ quoteChar ++ " not found"), p)
    | some params =>
      if p.connections.length ≥ p.max_connections then
        (.error ("Connection limit reached (" ++ toString p.max_connections ++ ")"), p)
      else create_connection p env params

/-- Model of `SSHConnectionPool.close_and_remove_connection`: close the
session and additionally forget its retained parameters. -/
def close_and_remove_connection (p : SSHConnectionPool) (cid : String) :
    SSHConnectionPool :=
  let p := (close_connection p cid).2
  { p with connection_params := dictDel p.connection_params cid }

/-- Accumulator-based splitter behind `pyReadlines`: cut the character list
after every newline, keeping the newline, with a trailing chunk for a final
line that lacks one. -/
def linesAux : List Char → List Char → List (List Char)
  | [], acc => if acc = [] then [] else [acc.reverse]
  | c :: cs, acc =>
    if c = '\n' then (acc.reverse ++ ['\n']) :: linesAux cs [] else linesAux cs (c :: acc)

/-- Python `f.readlines()` on a file's content. -/
def pyReadlines (s : String) : List String :=
  (linesAux s.data []).map fun l => String.mk l

/-- Python `f.writelines(lines)` (or sequential writes): the concatenation of
the lines. -/
def pyWritelines (L : List String) : String :=
  String.mk (L.map String.data).flatten

/-- Python `str.split()` with no separator on a character list: split on
runs of whitespace, producing no empty tokens. -/
def splitWsAux : List Char → List Char → List (List Char)
  | [], acc => if acc = [] then [] else [acc.reverse]
  | c :: cs, acc =>
    if c.isWhitespace then
      if acc = [] then splitWsAux cs [] else acc.reverse :: splitWsAux cs []
    else splitWsAux cs (c :: acc)

/-- Python `line.split()[0]` guarded by non-emptiness: the first whitespace
separated token of a line. -/
def firstTok (line : String) : Option String :=
  (splitWsAux line.data []).head?.map fun l => String.mk l

/-- The matching test of the `ssh_add_host_key` loop:
`line.strip() and line.split()[0] == host_entry` — the line strips to
non-empty (has a non-whitespace character) and its first token equals the
host token. -/
def hostKeyLineMatches (host line : String) : Bool :=
  (!line.data.all Char.isWhitespace) && (firstTok line == some host)

/-- The trust-store line written by `ssh_add_host_key`. -/
def hostKeyEntry (host key key_type : String) : String :=
  host ++ " " ++ key_type ++ " " ++ key ++ "\n"

/-- Model of `SshActionProvider.ssh_add_host_key` acting on the trust-store
file.  `content` is the current file content (`none` if the file does not
exist).  The first line whose first token equals the host token is rewritten
in place; otherwise the entry is appended.  Returns the new content and
whether an in-place update happened. -/
def ssh_add_host_key (content : Option String) (host key key_type : String) :
    String × Bool :=
  let entry := hostKeyEntry host key key_type
  match content with
  | none => (entry, false)
  | some c =>
    let lines := pyReadlines c
    match lines.findIdx? (hostKeyLineMatches host) with
    | some i => (pyWritelines (lines.set i entry), true)
    | none => (c ++ entry, false)

theorem containsStr_tail (u t : String) : ContainsStr (u ++ t) t :=
  containsStr_append_left u (containsStr_refl t)

theorem containsStr_head (t u : String) : ContainsStr (t ++ u) t :=
  containsStr_append_right u (containsStr_refl t)

/-- C1: the missing-host-key policy never returns normally — it always
raises an unknown-host-key error — and the error message carries the host
name, the presented key's type, and the presented key's material. -/
theorem missing_host_key_always_rejects_with_details
    (hostname key_type key_data : String) :
    ∃ m, missing_host_key hostname key_type key_data =
        .error (.unknownHostKeyError m) ∧
      ContainsStr m hostname ∧ ContainsStr m key_type ∧ ContainsStr m key_data := by
  refine ⟨missing_host_key_message hostname key_type key_data, rfl, ?_, ?_, ?_⟩
  · exact containsStr_append_right _ (containsStr_append_right _
      (containsStr_append_left _ (containsStr_refl hostname)))
  · exact containsStr_append_left _ (containsStr_append_right _
      (containsStr_append_right _ (containsStr_refl key_type)))
  · exact containsStr_append_left _ (containsStr_append_left _
      (containsStr_append_right _ (containsStr_refl key_data)))

/-- Exactly one of the three authentication fields is populated (truthy). -/
def ExactlyOneAuth (p : SSHConnectionParams) : Prop :=
  (pyTruthy p.password ∧ ¬pyTruthy p.private_key ∧ ¬pyTruthy p.private_key_path) ∨
  (¬pyTruthy p.password ∧ pyTruthy p.private_key ∧ ¬pyTruthy p.private_key_path) ∨
  (¬pyTruthy p.password ∧ ¬pyTruthy p.private_key ∧ pyTruthy p.private_key_path)

/-- Behaviour the validator body would enforce, had pydantic registered it
(it does not — see `constructSSHConnectionParams`): no populated authentication
method fails, as does an empty host or an empty username; with exactly one
authentication method and non-empty host and username, construction
succeeds. -/
theorem check_auth_method_provided_spec (p : SSHConnectionParams) :
    (¬(pyTruthy p.password ∨ pyTruthy p.private_key ∨ pyTruthy p.private_key_path) →
      check_auth_method_provided p =
        .error "At least one authentication method must be provided (password, private_key, or private_key_path)") ∧
    (p.host = "" → ∃ m, check_auth_method_provided p = .error m) ∧
    (p.username = "" → ∃ m, check_auth_method_provided p = .error m) ∧
    (ExactlyOneAuth p → p.host ≠ "" → p.username ≠ "" →
      check_auth_method_provided p = .ok p) := by
  refine ⟨fun h => ?_, fun h => ?_, fun h => ?_, fun hauth hh hu => ?_⟩
  · simp [check_auth_method_provided, h]
  · unfold check_auth_method_provided
    split
    · exact ⟨_, rfl⟩
    · exact ⟨_, rfl⟩
  · unfold check_auth_method_provided
    split
    · exact ⟨_, rfl⟩
    · split
      · exact ⟨_, rfl⟩
      · exact ⟨_, rfl⟩
  · have hany : pyTruthy p.password ∨ pyTruthy p.private_key ∨ pyTruthy p.private_key_path := by
      rcases hauth with ⟨h1, _, _⟩ | ⟨_, h2, _⟩ | ⟨_, _, h3⟩
      · exact Or.inl h1
      · exact Or.inr (Or.inl h2)
      · exact Or.inr (Or.inr h3)
    simp [check_auth_method_provided, hany, hh, hu]

/-- Instance of the validator-body behaviour: with only a password,
non-empty host and username, the body accepts. -/
theorem check_auth_method_provided_spec_witness :
    check_auth_method_provided ⟨"c1", "example.com", "user", some "pw", none, none, 22⟩ =
      .ok ⟨"c1", "example.com", "user", some "pw", none, none, 22⟩ :=
  (check_auth_method_provided_spec _).2.2.2 (Or.inl (by decide)) (by decide) (by decide)

/-- C8 (code bug): constructing parameters with no authentication method at
all — and even with an empty host — succeeds, because the `@classmethod`
wrapper above `@model_validator(mode="after")` keeps pydantic v2 from ever
registering `check_auth_method_provided`; the validator's own body, run on
the same failing input, would have rejected it with the construction error
the claim (and the validator's docstring) describe. -/
theorem construct_params_validator_never_runs :
    constructSSHConnectionParams ⟨"c1", "", "u", none, none, none, 22⟩ =
      .ok ⟨"c1", "", "u", none, none, none, 22⟩ ∧
    check_auth_method_provided ⟨"c1", "", "u", none, none, none, 22⟩ =
      .error "At least one authentication method must be provided (password, private_key, or private_key_path)" := by
  exact ⟨rfl, by decide⟩

/-- C3 (counterexample): on a connected session with exit status 0, empty
stdout and non-empty stderr, `execute` returns the stderr text alone — not
the claimed `"\n[stderr]: ..."` concatenation built from the empty stdout. -/
theorem execute_exit_zero_empty_stdout_counterexample :
    (execute
      ⟨⟨"c1", "h", "u", some "pw", none, none, 22⟩, true, some 0, some ()⟩
      ⟨some "1", .ok (0, "", "err")⟩ false).1 = .ok "err" ∧
    (Except.ok "err" : Except SSHError String) ≠ .ok ("" ++ "\n[stderr]: " ++ "err") := by
  constructor
  · rfl
  · decide

/-- C3 (amended): on a connected session whose command exits with status 0:
empty stderr gives stdout verbatim; non-empty stderr with non-empty stdout
gives the `"{stdout}\n[stderr]: {stderr}"` concatenation; non-empty stderr
with empty stdout gives the stderr text alone. -/
theorem execute_exit_zero_output_policy (s : SSHConnectionState) (env : ExecEnv)
    (ig : Bool) (out err : String)
    (hclient : s.ssh_client = some ()) (hconn : s.connected = true)
    (hprobe : env.probe = some "1") (hres : env.execRes = .ok (0, out, err)) :
    (err = "" → (execute s env ig).1 = .ok out) ∧
    (err ≠ "" → out ≠ "" → (execute s env ig).1 = .ok (out ++ "\n[stderr]: " ++ err)) ∧
    (err ≠ "" → out = "" → (execute s env ig).1 = .ok err) := by
  have hic : is_connected s env.probe = (true, s) := by
    simp [is_connected, hclient, hconn, hprobe]
  refine ⟨fun he => ?_, fun he ho => ?_, fun he ho => ?_⟩
  · subst he
    by_cases ho : out = ""
    · subst ho
      simp [execute, hic, hres, executeBody]
    · simp [execute, hic, hres, executeBody, ho]
  · simp [execute, hic, hres, executeBody, he, ho]
  · subst ho
    simp [execute, hic, hres, executeBody, he]

/-- Witness for C3 (amended): concrete runs exercising the three cases. -/
theorem execute_exit_zero_output_policy_witness :
    (execute
      ⟨⟨"c1", "h", "u", some "pw", none, none, 22⟩, true, some 0, some ()⟩
      ⟨some "1", .ok (0, "out", "warn")⟩ false).1 =
      .ok ("out" ++ "\n[stderr]: " ++ "warn") :=
  (execute_exit_zero_output_policy _ _ false "out" "warn" rfl rfl rfl rfl).2.1
    (by decide) (by decide)

/-- C4: on a connected session whose command exits with non-zero status and
with `ignore_stderr = false`, `execute` raises a connection error whose
message contains the exit code, and also the stderr text when it is
non-empty. -/
theorem execute_nonzero_exit_error_message (s : SSHConnectionState) (env : ExecEnv)
    (n : Int) (out err : String)
    (hclient : s.ssh_client = some ()) (hconn : s.connected = true)
    (hprobe : env.probe = some "1") (hres : env.execRes = .ok (n, out, err))
    (hn : n ≠ 0) :
    ∃ m, (execute s env false).1 = .error (.connectionError m) ∧
      ContainsStr m (toString n) ∧ (err ≠ "" → ContainsStr m err) := by
  have hic : is_connected s env.probe = (true, s) := by
    simp [is_connected, hclient, hconn, hprobe]
  by_cases he : err = ""
  · refine ⟨"Command execution failed on " ++ s.params.connection_id ++ ": " ++
      ("Command execution failed on " ++ s.params.connection_id ++
        " with exit code " ++ toString n), ?_, ?_, ?_⟩
    · simp [execute, hic, hres, executeBody, he, hn]
    · exact containsStr_append_left _ (containsStr_tail _ _)
    · intro hc
      exact absurd he hc
  · refine ⟨"Command execution failed on " ++ s.params.connection_id ++ ": " ++
      ("Command execution failed on " ++ s.params.connection_id ++
        " (exit code " ++ toString n ++ "): " ++ err), ?_, ?_, ?_⟩
    · simp [execute, hic, hres, executeBody, he, hn]
    · exact containsStr_append_left _ (containsStr_append_right _
        (containsStr_append_right _ (containsStr_tail _ _)))
    · intro _
      exact containsStr_append_left _ (containsStr_tail _ _)

/-- Witness for C4: exit code 7 with stderr text, message carries both. -/
theorem execute_nonzero_exit_error_message_witness :
    ∃ m, (execute
        ⟨⟨"c1", "h", "u", some "pw", none, none, 22⟩, true, some 0, some ()⟩
        ⟨some "1", .ok (7, "", "boom")⟩ false).1 = .error (.connectionError m) ∧
      ContainsStr m (toString (7 : Int)) ∧ ("boom" ≠ "" → ContainsStr m "boom") :=
  execute_nonzero_exit_error_message _ _ 7 "" "boom" rfl rfl rfl rfl (by decide)

/-- C10: an ordinary non-zero-exit failure (no transport fault) with
`ignore_stderr = false` or empty stderr raises a connection error and tears
the session down: the final state is disconnected with the client handle
dropped. -/
theorem execute_nonzero_exit_resets_connection (s : SSHConnectionState)
    (env : ExecEnv) (ig : Bool) (n : Int) (out err : String)
    (hclient : s.ssh_client = some ()) (hconn : s.connected = true)
    (hprobe : env.probe = some "1") (hres : env.execRes = .ok (n, out, err))
    (hn : n ≠ 0) (hraise : ig = false ∨ err = "") :
    (execute s env ig).2.connected = false ∧
    (execute s env ig).2.ssh_client = none ∧
    ∃ m, (execute s env ig).1 = .error (.connectionError m) := by
  have hic : is_connected s env.probe = (true, s) := by
    simp [is_connected, hclient, hconn, hprobe]
  have hbody : ∃ m, executeBody s.params.connection_id n out err ig = .error m := by
    rcases hraise with hig | he
    · subst hig
      by_cases he : err = ""
      · refine ⟨"Command execution failed on " ++ s.params.connection_id ++
          " with exit code " ++ toString n, ?_⟩
        simp [executeBody, he, hn]
      · refine ⟨"Command execution failed on " ++ s.params.connection_id ++
          " (exit code " ++ toString n ++ "): " ++ err, ?_⟩
        simp [executeBody, he, hn]
    · refine ⟨"Command execution failed on " ++ s.params.connection_id ++
        " with exit code " ++ toString n, ?_⟩
      simp [executeBody, he, hn]
  obtain ⟨m, hm⟩ := hbody
  refine ⟨?_, ?_, ?_⟩ <;>
    simp [execute, hic, hres, hm, reset_connection]

/-- Witness for C10: a concrete exit-1 run leaves the session torn down. -/
theorem execute_nonzero_exit_resets_connection_witness :
    (execute
      ⟨⟨"c1", "h", "u", some "pw", none, none, 22⟩, true, some 0, some ()⟩
      ⟨some "1", .ok (1, "partial", "oops")⟩ false).2.connected = false ∧
    (execute
      ⟨⟨"c1", "h", "u", some "pw", none, none, 22⟩, true, some 0, some ()⟩
      ⟨some "1", .ok (1, "partial", "oops")⟩ false).2.ssh_client = none ∧
    ∃ m, (execute
      ⟨⟨"c1", "h", "u", some "pw", none, none, 22⟩, true, some 0, some ()⟩
      ⟨some "1", .ok (1, "partial", "oops")⟩ false).1 = .error (.connectionError m) :=
  execute_nonzero_exit_resets_connection _ _ false 1 "partial" "oops"
    rfl rfl rfl rfl (by decide) (Or.inl rfl)

theorem loadKeyLoop_spec (l : List KeyOutcome) (pw : Bool) (le : Option String)
    (hno : ∀ o ∈ l, isOtherError o = false) :
    (∀ c, firstSuccess l = some c → loadKeyLoop l pw le = .ok c) ∧
    (firstSuccess l = none → (pw || anyPasswordRequired l) = true →
      loadKeyLoop l pw le =
        .error "Password-protected key provided but no password was given") ∧
    (firstSuccess l = none → (pw || anyPasswordRequired l) = false →
      ∃ m, loadKeyLoop l pw le = .error m ∧ IsFormatErrorMsg m) := by
  induction l generalizing pw le with
  | nil =>
    refine ⟨fun c hc => by simp [firstSuccess] at hc, fun _ hpw => ?_, fun _ hpw => ?_⟩
    · simp [anyPasswordRequired] at hpw
      simp [loadKeyLoop, hpw]
    · simp [anyPasswordRequired] at hpw
      cases le with
      | none => exact ⟨_, by simp [loadKeyLoop, hpw], Or.inr rfl⟩
      | some e => exact ⟨_, by simp [loadKeyLoop, hpw], Or.inl ⟨e, rfl⟩⟩
  | cons o rest ih =>
    have hno' : ∀ x ∈ rest, isOtherError x = false :=
      fun x hx => hno x (List.mem_cons_of_mem _ hx)
    cases o with
    | ok cred =>
      refine ⟨fun c hc => ?_, fun hfs _ => ?_, fun hfs _ => ?_⟩
      · simp [firstSuccess] at hc
        simp [loadKeyLoop, hc]
      · simp [firstSuccess] at hfs
      · simp [firstSuccess] at hfs
    | passwordRequired =>
      have h := ih true le hno'
      refine ⟨fun c hc => ?_, fun hfs _ => ?_, fun hfs hpw => ?_⟩
      · simp only [loadKeyLoop]
        exact h.1 c (by simpa [firstSuccess] using hc)
      · simp only [loadKeyLoop]
        exact h.2.1 (by simpa [firstSuccess] using hfs) (by simp)
      · simp [anyPasswordRequired] at hpw
    | sshException msg =>
      have h := ih pw (some msg) hno'
      have hany : anyPasswordRequired (KeyOutcome.sshException msg :: rest) =
          anyPasswordRequired rest := by
        simp [anyPasswordRequired]
      refine ⟨fun c hc => ?_, fun hfs hpw => ?_, fun hfs hpw => ?_⟩
      · simp only [loadKeyLoop]
        exact h.1 c (by simpa [firstSuccess] using hc)
      · simp only [loadKeyLoop]
        exact h.2.1 (by simpa [firstSuccess] using hfs) (by rw [hany] at hpw; exact hpw)
      · simp only [loadKeyLoop]
        exact h.2.2 (by simpa [firstSuccess] using hfs) (by rw [hany] at hpw; exact hpw)
    | otherError msg =>
      have := hno _ (List.mem_cons_self _ _)
      simp [isOtherError] at this

/-- C7 (amended): provided no attempt raises an exception outside the SSH
layer (which aborts the probe immediately with a generic key error), the
loader walks RSA, DSA, ECDSA, Ed25519 in order and returns the first
structural success — in particular RSA-shaped material yields the RSA
credential; if none succeeds and some attempt reported that a passphrase is
required, it raises the passphrase-required key error; if none succeeds and
none required a passphrase, it raises a key-format error. -/
theorem load_key_from_string_order_and_errors (env : KeyLoadEnv)
    (hno : ∀ o ∈ keyAttempts env, isOtherError o = false) :
    (∀ c, env.rsa = KeyOutcome.ok c → load_key_from_string env = .ok c) ∧
    (∀ c, firstSuccess (keyAttempts env) = some c →
      load_key_from_string env = .ok c) ∧
    (firstSuccess (keyAttempts env) = none →
      anyPasswordRequired (keyAttempts env) = true →
      load_key_from_string env =
        .error "Password-protected key provided but no password was given") ∧
    (firstSuccess (keyAttempts env) = none →
      anyPasswordRequired (keyAttempts env) = false →
      ∃ m, load_key_from_string env = .error m ∧ IsFormatErrorMsg m) := by
  have h := loadKeyLoop_spec (keyAttempts env) false none hno
  refine ⟨fun c hc => ?_, h.1, fun a b => h.2.1 a (by simp [b]), fun a b => h.2.2 a (by simp [b])⟩
  exact h.1 c (by simp [keyAttempts, hc, firstSuccess])

/-- Witness for C7 (amended): every attempt fails structurally and RSA
reported a passphrase requirement, so the passphrase-required error is
raised. -/
theorem load_key_from_string_order_and_errors_witness :
    load_key_from_string
        ⟨.passwordRequired, .sshException "x", .sshException "y", .sshException "z"⟩ =
      .error "Password-protected key provided but no password was given" :=
  (load_key_from_string_order_and_errors _ (by decide)).2.2.1 (by decide) (by decide)

/-- C7 (counterexample): with RSA reporting a passphrase requirement and DSA
raising an exception outside the SSH layer, no attempt succeeds and a
passphrase was required, yet the loader raises the generic key error for the
DSA abort instead of the passphrase-required error — refuting the claimed
trichotomy. -/
theorem load_key_from_string_counterexample :
    firstSuccess (keyAttempts ⟨.passwordRequired, .otherError "boom",
        .sshException "x", .sshException "y"⟩) = none ∧
    anyPasswordRequired (keyAttempts ⟨.passwordRequired, .otherError "boom",
        .sshException "x", .sshException "y"⟩) = true ∧
    load_key_from_string ⟨.passwordRequired, .otherError "boom",
        .sshException "x", .sshException "y"⟩ =
      .error "Failed to load key from string: boom" ∧
    "Failed to load key from string: boom" ≠
      "Password-protected key provided but no password was given" := by
  refine ⟨by decide, by decide, rfl, by decide⟩

theorem transportStep_snd (s : SSHConnectionState) (env : ConnectEnv) (mh : String) :
    (transportStep s env mh).2 = s := by
  unfold transportStep
  split <;> rfl

theorem connect_with_password_snd (s : SSHConnectionState) (env : ConnectEnv) :
    (connect_with_password s env).2 = init_ssh_client (disconnect s) := by
  unfold connect_with_password
  exact transportStep_snd _ _ _

theorem connect_with_key_snd (s : SSHConnectionState) (env : ConnectEnv) (b : Bool) :
    (connect_with_key s env b).2 = init_ssh_client (disconnect s) := by
  unfold connect_with_key
  split
  · split
    · rfl
    · exact transportStep_snd _ _ _
  · exact transportStep_snd _ _ _

theorem connect_with_key_path_snd (s : SSHConnectionState) (env : ConnectEnv)
    (path : String) :
    (connect_with_key_path s env path).2 = s ∨
      (connect_with_key_path s env path).2 = init_ssh_client (disconnect s) := by
  unfold connect_with_key_path
  split
  · exact Or.inl rfl
  · split
    · exact Or.inl rfl
    · split
      · rename_i heq
        right
        have := connect_with_key_snd s env false
        rw [heq] at this
        exact this
      · right
        exact connect_with_key_snd s env false

theorem connectAuth_snd_connected (s : SSHConnectionState) (env : ConnectEnv)
    (hs : s.connected = false) : (connectAuth s env).2.connected = false := by
  unfold connectAuth
  split
  · rw [connect_with_password_snd]
    rfl
  · split
    · rw [connect_with_key_snd]
      rfl
    · rcases connect_with_key_path_snd s env _ with h | h
      · rw [h]
        exact hs
      · rw [h]
        rfl

theorem connectBody_error_connected (s : SSHConnectionState) (env : ConnectEnv)
    (hs : s.connected = false) :
    ∀ e s', connectBody s env = (.error e, s') → s'.connected = false := by
  intro e s' h
  unfold connectBody at h
  obtain ⟨r, s1, hX⟩ : ∃ r s1, connectAuth s env = (r, s1) := ⟨_, _, rfl⟩
  have hs1 : s1.connected = false := by
    have h2 := connectAuth_snd_connected s env hs
    rw [hX] at h2
    exact h2
  rw [hX] at h
  cases r with
  | error e0 =>
    simp only [Prod.mk.injEq] at h
    rw [← h.2]
    exact hs1
  | ok u =>
    cases u
    cases hsent : env.sentinel with
    | error m =>
      rw [hsent] at h
      simp only [Prod.mk.injEq] at h
      rw [← h.2]
      exact hs1
    | ok out =>
      rw [hsent] at h
      dsimp only at h
      by_cases hout : out ≠ "Connection successful"
      · rw [if_pos hout] at h
        simp only [Prod.mk.injEq] at h
        rw [← h.2]
      · rw [if_neg hout] at h
        simp at h

/-- C2 (amended): every exception out of `connect()` leaves the session in
the `Disconnected` state (`connected = false`); additionally, when the
exception is the unknown-host-key error the transport handle is dropped
(`ssh_client = none`). For other failures the stale handle may persist (see
the counterexample). -/
theorem connect_failure_leaves_disconnected (s : SSHConnectionState)
    (env : ConnectEnv) (e : SSHError) (s' : SSHConnectionState)
    (h : connect s env = (.error e, s')) :
    s'.connected = false ∧
      (∀ m, e = SSHError.unknownHostKeyError m → s'.ssh_client = none) := by
  unfold connect at h
  obtain ⟨r, s1, hX⟩ : ∃ r s1, connectBody (disconnect s) env = (r, s1) := ⟨_, _, rfl⟩
  rw [hX] at h
  have hbody := connectBody_error_connected (disconnect s) env rfl
  cases r with
  | error e0 =>
    cases e0 with
    | unknownHostKeyError m =>
      simp only [Prod.mk.injEq] at h
      refine ⟨by rw [← h.2]; rfl, fun m2 _ => by rw [← h.2]; rfl⟩
    | connectionError m =>
      simp only [Prod.mk.injEq] at h
      obtain ⟨h1, h2⟩ := h
      subst h2
      refine ⟨hbody _ _ hX, fun m2 hm2 => ?_⟩
      injection h1 with h1a
      rw [← h1a] at hm2
      cases hm2
    | keyError m =>
      simp only [Prod.mk.injEq] at h
      obtain ⟨h1, h2⟩ := h
      subst h2
      refine ⟨hbody _ _ hX, fun m2 hm2 => ?_⟩
      injection h1 with h1a
      rw [← h1a] at hm2
      cases hm2
    | rawError m =>
      simp only [Prod.mk.injEq] at h
      obtain ⟨h1, h2⟩ := h
      subst h2
      refine ⟨hbody _ _ hX, fun m2 hm2 => ?_⟩
      injection h1 with h1a
      rw [← h1a] at hm2
      cases hm2
  | ok u =>
    cases u
    simp at h

/-- Witness for C2 (amended): a failed password handshake ends with
`connected = false`, and the unknown-host-key implication holds vacuously. -/
theorem connect_failure_leaves_disconnected_witness :
    ({ params := ⟨"c1", "h", "u", some "pw", none, none, 22⟩, connected := false,
        connection_time := none,
        ssh_client := some () } : SSHConnectionState).connected = false ∧
      (∀ m, SSHError.connectionError "Failed to connect with password: Authentication failed" =
          SSHError.unknownHostKeyError m →
        ({ params := ⟨"c1", "h", "u", some "pw", none, none, 22⟩, connected := false,
            connection_time := none,
            ssh_client := some () } : SSHConnectionState).ssh_client = none) :=
  connect_failure_leaves_disconnected
    (newConnection ⟨"c1", "h", "u", some "pw", none, none, 22⟩)
    ⟨⟨.sshException "a", .sshException "b", .sshException "c", .sshException "d"⟩,
      true, .fail "Authentication failed", .ok "Connection successful", "", 5,
      "/root/.ssh/id_rsa"⟩
    (SSHError.connectionError "Failed to connect with password: Authentication failed")
    _ (by decide)

/-- C2 (counterexample): a generic transport fault during a password
handshake raises a connection error, yet the transport handle is not
dropped — `ssh_client` is still set after `connect` fails, refuting the
claim that every failed `connect` leaves `ssh_client = None`. -/
theorem connect_failure_counterexample :
    (connect (newConnection ⟨"c1", "h", "u", some "pw", none, none, 22⟩)
        ⟨⟨.sshException "a", .sshException "b", .sshException "c", .sshException "d"⟩,
          true, .fail "Authentication failed", .ok "Connection successful", "", 5,
          "/root/.ssh/id_rsa"⟩).1 =
      .error (.connectionError "Failed to connect with password: Authentication failed") ∧
    (connect (newConnection ⟨"c1", "h", "u", some "pw", none, none, 22⟩)
        ⟨⟨.sshException "a", .sshException "b", .sshException "c", .sshException "d"⟩,
          true, .fail "Authentication failed", .ok "Connection successful", "", 5,
          "/root/.ssh/id_rsa"⟩).2.ssh_client ≠ none := by
  exact ⟨rfl, by decide⟩

theorem find?_append_of_none {α : Type} {l1 l2 : List α} {p : α → Bool}
    (h : l1.find? p = none) : (l1 ++ l2).find? p = l2.find? p := by
  induction l1 with
  | nil => rfl
  | cons a t ih =>
    by_cases hpa : p a = true
    · rw [List.find?_cons_of_pos _ hpa] at h
      exact absurd h (by simp)
    · rw [List.find?_cons_of_neg _ hpa] at h
      rw [List.cons_append, List.find?_cons_of_neg _ hpa, ih h]

theorem dictGet_dictSet_self {α : Type} (m : List (String × α)) (k : String) (v : α) :
    dictGet (dictSet m k v) k = some v := by
  unfold dictSet
  split
  · rename_i hany
    unfold dictGet
    induction m with
    | nil => simp at hany
    | cons a t ih =>
      simp only [List.any_cons, Bool.or_eq_true] at hany
      by_cases hk : (a.1 == k) = true
      · rw [List.map_cons, if_pos hk, List.find?_cons_of_pos _ (by simp)]
        rfl
      · rcases hany with h | h
        · exact absurd h hk
        · rw [List.map_cons, if_neg hk, List.find?_cons_of_neg _ (by simpa using hk)]
          exact ih h
  · rename_i hany
    unfold dictGet
    have hnone : m.find? (fun x => x.1 == k) = none := by
      rw [List.find?_eq_none]
      intro x hx hc
      exact hany (List.any_eq_true.mpr ⟨x, hx, hc⟩)
    rw [find?_append_of_none hnone, List.find?_cons_of_pos _ (by simp)]
    rfl

theorem dictGet_dictDel_self {α : Type} (m : List (String × α)) (k : String) :
    dictGet (dictDel m k) k = none := by
  have hnone : (m.filter (fun x => x.1 != k)).find? (fun x => x.1 == k) = none := by
    rw [List.find?_eq_none]
    intro x hx
    rw [List.mem_filter] at hx
    simpa using hx.2
  unfold dictGet dictDel
  rw [hnone]
  rfl

theorem close_connection_max (p : SSHConnectionPool) (cid : String) :
    (close_connection p cid).2.max_connections = p.max_connections := by
  unfold close_connection
  split <;> rfl

theorem close_connection_params (p : SSHConnectionPool) (cid : String) :
    (close_connection p cid).2.connection_params = p.connection_params := by
  unfold close_connection
  split <;> rfl

theorem close_connection_len_le (p : SSHConnectionPool) (cid : String) :
    (close_connection p cid).2.connections.length ≤ p.connections.length := by
  unfold close_connection
  split
  · exact le_rfl
  · exact List.length_filter_le _ _

theorem close_connection_get_none (p : SSHConnectionPool) (cid : String) :
    dictGet (close_connection p cid).2.connections cid = none := by
  unfold close_connection
  split
  · rename_i h
    exact h
  · exact dictGet_dictDel_self _ _

theorem closeIdleLoop_max (env : String → Option String)
    (l : List (String × SSHConnectionState)) :
    ∀ (p : SSHConnectionPool) (n : Nat),
      (closeIdleLoop env l p n).1.max_connections = p.max_connections := by
  induction l with
  | nil => intro p n; rfl
  | cons a rest ih =>
    intro p n
    obtain ⟨cid, c⟩ := a
    unfold closeIdleLoop
    split
    · exact ih p n
    · rw [ih _ _, close_connection_max]

theorem closeIdleLoop_params (env : String → Option String)
    (l : List (String × SSHConnectionState)) :
    ∀ (p : SSHConnectionPool) (n : Nat),
      (closeIdleLoop env l p n).1.connection_params = p.connection_params := by
  induction l with
  | nil => intro p n; rfl
  | cons a rest ih =>
    intro p n
    obtain ⟨cid, c⟩ := a
    unfold closeIdleLoop
    split
    · exact ih p n
    · rw [ih _ _, close_connection_params]

theorem closeIdleLoop_len_le (env : String → Option String)
    (l : List (String × SSHConnectionState)) :
    ∀ (p : SSHConnectionPool) (n : Nat),
      (closeIdleLoop env l p n).1.connections.length ≤ p.connections.length := by
  induction l with
  | nil => intro p n; exact le_rfl
  | cons a rest ih =>
    intro p n
    obtain ⟨cid, c⟩ := a
    unfold closeIdleLoop
    split
    · exact ih p n
    · exact le_trans (ih _ _) (close_connection_len_le _ _)

theorem closeIdleLoop_filter (env : String → Option String) :
    ∀ (l pre : List (String × SSHConnectionState)) (p : SSHConnectionPool) (n : Nat),
      p.connections = pre ++ l →
      ((pre ++ l).map Prod.fst).Nodup →
      (closeIdleLoop env l p n).1.connections =
        pre ++ l.filter (fun x => (is_connected x.2 (env x.1)).1) := by
  intro l
  induction l with
  | nil =>
    intro pre p n hp _
    simpa using hp
  | cons a rest ih =>
    intro pre p n hp hnd
    obtain ⟨cid, c⟩ := a
    have hpre : ∀ x ∈ pre, (x.1 == cid) = false := by
      intro x hx
      have : cid ∉ pre.map Prod.fst := by
        rw [List.map_append] at hnd
        have h2 := (List.nodup_append.mp hnd).2.2
        intro hmem
        exact h2 hmem (by simp)
      simp only [beq_eq_false_iff_ne, ne_eq]
      intro hc
      exact this (hc ▸ List.mem_map_of_mem Prod.fst hx)
    have hrest : cid ∉ rest.map Prod.fst := by
      rw [List.map_append] at hnd
      have h2 := (List.nodup_append.mp hnd).2.1
      simp only [List.map_cons] at h2
      exact (List.nodup_cons.mp h2).1
    have hstep : closeIdleLoop env ((cid, c) :: rest) p n =
        if (is_connected c (env cid)).1 then closeIdleLoop env rest p n
        else closeIdleLoop env rest (close_connection p cid).2 (n + 1) := rfl
    by_cases halive : (is_connected c (env cid)).1 = true
    · rw [hstep, if_pos halive]
      have hres := ih (pre ++ [(cid, c)]) p n
        (by rw [hp, List.append_assoc]; rfl)
        (by rwa [List.append_assoc, List.singleton_append])
      rw [hres, List.filter_cons, if_pos halive, List.append_assoc, List.singleton_append]
    · have hfalse : (is_connected c (env cid)).1 = false := by
        simpa using halive
      rw [hstep, if_neg halive]
      have hgetc : dictGet p.connections cid = some c := by
        unfold dictGet
        rw [hp, find?_append_of_none (by rw [List.find?_eq_none]; intro x hx; simp [hpre x hx]),
          List.find?_cons_of_pos _ (by simp)]
        rfl
      have hdel : dictDel p.connections cid = pre ++ rest := by
        unfold dictDel
        rw [hp, List.filter_append]
        congr 1
        · rw [List.filter_eq_self]
          intro x hx
          simpa using hpre x hx
        · rw [List.filter_cons, if_neg (by simp)]
          rw [List.filter_eq_self]
          intro x hx
          simp only [bne_iff_ne, ne_eq]
          intro hc
          exact hrest (hc ▸ List.mem_map_of_mem Prod.fst hx)
      have hclose : (close_connection p cid).2.connections = pre ++ rest := by
        unfold close_connection
        rw [hgetc]
        exact hdel
      have hnd' : ((pre ++ rest).map Prod.fst).Nodup := by
        apply List.Nodup.sublist _ hnd
        apply List.Sublist.map
        exact List.Sublist.append_left (List.Sublist.cons _ (List.Sublist.refl rest)) pre
      rw [ih pre (close_connection p cid).2 (n + 1) hclose hnd',
        List.filter_cons, if_neg (by simp [hfalse])]

/-- C5: `create_connection` first evicts exactly the idle (probe-failing)
entries; if the live map still holds `max_connections` or more entries it
raises the capacity error leaving the (post-eviction) pool otherwise
untouched; otherwise it stores the parameters under their id (overwriting
any prior entry), registers a new not-yet-connected session under that id,
and returns it. -/
theorem create_connection_spec (p : SSHConnectionPool) (env : String → Option String)
    (params : SSHConnectionParams) (hnd : (p.connections.map Prod.fst).Nodup) :
    ((close_idle_connections p env).1.connections =
      p.connections.filter (fun x => (is_connected x.2 (env x.1)).1)) ∧
    ((close_idle_connections p env).1.connections.length ≥ p.max_connections →
      create_connection p env params =
        (.error ("Connection limit reached (" ++ toString p.max_connections ++ ")"),
          (close_idle_connections p env).1)) ∧
    ((close_idle_connections p env).1.connections.length < p.max_connections →
      create_connection p env params =
        (.ok (newConnection params),
          { (close_idle_connections p env).1 with
              connection_params :=
                dictSet (close_idle_connections p env).1.connection_params
                  params.connection_id params,
              connections :=
                dictSet (close_idle_connections p env).1.connections
                  params.connection_id (newConnection params) }) ∧
      dictGet (create_connection p env params).2.connections params.connection_id =
        some (newConnection params) ∧
      dictGet (create_connection p env params).2.connection_params params.connection_id =
        some params ∧
      (newConnection params).connected = false ∧
      (newConnection params).ssh_client = none) := by
  have hmax : (close_idle_connections p env).1.max_connections = p.max_connections :=
    closeIdleLoop_max env p.connections p 0
  have hfilter : (close_idle_connections p env).1.connections =
      p.connections.filter (fun x => (is_connected x.2 (env x.1)).1) :=
    closeIdleLoop_filter env p.connections [] p 0 rfl hnd
  refine ⟨hfilter, fun hcap => ?_, fun hcap => ?_⟩
  · unfold create_connection
    rw [if_pos (by rw [hmax]; exact hcap), hmax]
  · have heq : create_connection p env params =
        (.ok (newConnection params),
          { (close_idle_connections p env).1 with
              connection_params :=
                dictSet (close_idle_connections p env).1.connection_params
                  params.connection_id params,
              connections :=
                dictSet (close_idle_connections p env).1.connections
                  params.connection_id (newConnection params) }) := by
      unfold create_connection
      rw [if_neg (by rw [hmax]; exact not_le.mpr hcap)]
    refine ⟨heq, ?_, ?_, rfl, rfl⟩
    · rw [heq]
      exact dictGet_dictSet_self _ _ _
    · rw [heq]
      exact dictGet_dictSet_self _ _ _

/-- Concrete pool for the C5 witness: one live entry, one idle entry, bound
2. -/
def c5pool : SSHConnectionPool :=
  { connections :=
      [("a", { params := ⟨"a", "h", "u", some "pw", none, none, 22⟩,
               connected := true, connection_time := some 0, ssh_client := some () }),
       ("b", newConnection ⟨"b", "h", "u", some "pw", none, none, 22⟩)],
    max_connections := 2,
    connection_params :=
      [("a", ⟨"a", "h", "u", some "pw", none, none, 22⟩),
       ("b", ⟨"b", "h", "u", some "pw", none, none, 22⟩)] }

/-- Witness for C5: in a full pool with one idle entry, eviction frees a
slot and creation succeeds, registering the new session and parameters. -/
theorem create_connection_spec_witness :
    dictGet (create_connection c5pool (fun _ => some "1")
        ⟨"c", "h2", "u2", some "pw", none, none, 22⟩).2.connections "c" =
      some (newConnection ⟨"c", "h2", "u2", some "pw", none, none, 22⟩) ∧
    dictGet (create_connection c5pool (fun _ => some "1")
        ⟨"c", "h2", "u2", some "pw", none, none, 22⟩).2.connection_params "c" =
      some ⟨"c", "h2", "u2", some "pw", none, none, 22⟩ ∧
    (newConnection (⟨"c", "h2", "u2", some "pw", none, none, 22⟩ :
      SSHConnectionParams)).connected = false :=
  have h := (create_connection_spec c5pool (fun _ => some "1")
    ⟨"c", "h2", "u2", some "pw", none, none, 22⟩ (by decide)).2.2 (by decide)
  ⟨h.2.1, h.2.2.1, h.2.2.2.1⟩

/-- C6: after `close_connection id` (which keeps the retained parameters), a
`get_connection id` within capacity returns a fresh disconnected session
rebuilt from the same retained parameters; after
`close_and_remove_connection id`, `get_connection id` raises the not-found
error. -/
theorem pool_close_vs_remove (p : SSHConnectionPool) (cid : String)
    (env : String → Option String) :
    (∀ pr, dictGet p.connection_params cid = some pr →
      (close_connection p cid).2.connections.length < p.max_connections →
      ∃ pl, get_connection (close_connection p cid).2 env cid =
          (.ok (newConnection pr), pl) ∧
        (newConnection pr).connected = false ∧
        (newConnection pr).ssh_client = none ∧
        (newConnection pr).params = pr) ∧
    get_connection (close_and_remove_connection p cid) env cid =
      (.error ("Connection ID " ++ quoteChar ++ cid ++ quoteChar ++ " not found"),
        close_and_remove_connection p cid) := by
  constructor
  · intro pr hreg hcap
    have hget : dictGet (close_connection p cid).2.connections cid = none :=
      close_connection_get_none p cid
    have hparams : dictGet (close_connection p cid).2.connection_params cid = some pr := by
      rw [close_connection_params]
      exact hreg
    have hmax : (close_connection p cid).2.max_connections = p.max_connections :=
      close_connection_max p cid
    unfold get_connection
    rw [hget, hparams]
    dsimp only
    rw [if_neg (by rw [hmax]; exact not_le.mpr hcap)]
    have hmax2 : (close_idle_connections (close_connection p cid).2 env).1.max_connections =
        p.max_connections := by
      unfold close_idle_connections
      rw [closeIdleLoop_max, hmax]
    have hlen2 : (close_idle_connections (close_connection p cid).2 env).1.connections.length ≤
        (close_connection p cid).2.connections.length :=
      closeIdleLoop_len_le env _ _ 0
    unfold create_connection
    rw [if_neg (by rw [hmax2]; exact not_le.mpr (lt_of_le_of_lt hlen2 hcap))]
    exact ⟨_, rfl, rfl, rfl, rfl⟩
  · have hget : dictGet (close_and_remove_connection p cid).connections cid = none := by
      unfold close_and_remove_connection
      exact close_connection_get_none p cid
    have hparams : dictGet (close_and_remove_connection p cid).connection_params cid = none := by
      unfold close_and_remove_connection
      exact dictGet_dictDel_self _ _
    unfold get_connection
    rw [hget, hparams]

/-- Concrete pool for the C6 witness. -/
def c6pool : SSHConnectionPool :=
  { connections :=
      [("a", { params := ⟨"a", "h", "u", some "pw", none, none, 22⟩,
               connected := true, connection_time := some 0, ssh_client := some () })],
    max_connections := 2,
    connection_params := [("a", ⟨"a", "h", "u", some "pw", none, none, 22⟩)] }

/-- Witness for C6: close then get returns a fresh disconnected session from
the retained parameters. -/
theorem pool_close_vs_remove_witness :
    ∃ pl, get_connection (close_connection c6pool "a").2 (fun _ => none) "a" =
        (.ok (newConnection ⟨"a", "h", "u", some "pw", none, none, 22⟩), pl) ∧
      (newConnection (⟨"a", "h", "u", some "pw", none, none, 22⟩ :
        SSHConnectionParams)).connected = false ∧
      (newConnection (⟨"a", "h", "u", some "pw", none, none, 22⟩ :
        SSHConnectionParams)).ssh_client = none ∧
      (newConnection (⟨"a", "h", "u", some "pw", none, none, 22⟩ :
        SSHConnectionParams)).params = ⟨"a", "h", "u", some "pw", none, none, 22⟩ :=
  (pool_close_vs_remove c6pool "a" (fun _ => none)).1
    ⟨"a", "h", "u", some "pw", none, none, 22⟩ (by decide) (by decide)

/-- A character list that is one well-formed line: a newline-free body
followed by the terminating newline. -/
def ProperData (l : List Char) : Prop :=
  ∃ body, l = body ++ ['\n'] ∧ '\n' ∉ body

/-- A well-formed trust-store line (ends with its only newline). -/
def ProperLine (s : String) : Prop := ProperData s.data

theorem linesAux_body :
    ∀ (body rest acc : List Char), '\n' ∉ body →
      linesAux (body ++ '\n' :: rest) acc =
        (acc.reverse ++ body ++ ['\n']) :: linesAux rest [] := by
  intro body
  induction body with
  | nil =>
    intro rest acc _
    simp [linesAux]
  | cons c cs ih =>
    intro rest acc hnb
    have hc : ¬(c = '\n') := fun h => hnb (h ▸ List.mem_cons_self c cs)
    simp only [List.cons_append, linesAux, if_neg hc, List.append_eq]
    rw [ih rest (c :: acc) (fun hm => hnb (List.mem_cons_of_mem _ hm))]
    simp [List.append_assoc]

theorem linesAux_flatten :
    ∀ (L : List (List Char)), (∀ l ∈ L, ProperData l) →
      ∀ (rest : List Char),
        linesAux (L.flatten ++ rest) [] = L ++ linesAux rest [] := by
  intro L
  induction L with
  | nil =>
    intro _ rest
    simp
  | cons l t ih =>
    intro hL rest
    obtain ⟨body, hl, hnb⟩ := hL l (List.mem_cons_self _ _)
    subst hl
    rw [List.flatten_cons, List.append_assoc, List.append_assoc, List.singleton_append]
    rw [linesAux_body body (t.flatten ++ rest) [] hnb,
      ih (fun x hx => hL x (List.mem_cons_of_mem _ hx)) rest]
    simp

theorem linesAux_flatten_inv :
    ∀ (cs acc : List Char), (linesAux cs acc).flatten = acc.reverse ++ cs := by
  intro cs
  induction cs with
  | nil =>
    intro acc
    unfold linesAux
    split
    · simp_all
    · simp
  | cons c t ih =>
    intro acc
    unfold linesAux
    split
    · rename_i hc
      rw [List.flatten_cons, ih []]
      simp [hc, List.append_assoc]
    · rw [ih (c :: acc)]
      simp

theorem string_mk_data (s : String) : String.mk s.data = s := rfl

theorem map_data_pyReadlines (c : String) :
    (pyReadlines c).map String.data = linesAux c.data [] := by
  unfold pyReadlines
  rw [List.map_map]
  have : (String.data ∘ fun l => String.mk l) = id := by
    funext l
    rfl
  rw [this, List.map_id]

theorem flatten_pyReadlines (c : String) :
    ((pyReadlines c).map String.data).flatten = c.data := by
  rw [map_data_pyReadlines, linesAux_flatten_inv]
  rfl

theorem readlines_writelines (L : List String) (hL : ∀ l ∈ L, ProperLine l) :
    pyReadlines (pyWritelines L) = L := by
  unfold pyReadlines pyWritelines
  have hdata : (String.mk (L.map String.data).flatten).data = (L.map String.data).flatten := rfl
  rw [hdata]
  have hflat := linesAux_flatten (L.map String.data)
    (by
      intro l hl
      rw [List.mem_map] at hl
      obtain ⟨s, hs, rfl⟩ := hl
      exact hL s hs) []
  rw [List.append_nil] at hflat
  rw [hflat]
  have : linesAux [] [] = ([] : List (List Char)) := rfl
  rw [this, List.append_nil, List.map_map]
  have hcomp : ((fun l => String.mk l) ∘ String.data) = id := by
    funext s
    exact string_mk_data s
  rw [hcomp, List.map_id]

theorem properLine_hostKeyEntry (host key key_type : String)
    (hentry : '\n' ∉ (host ++ " " ++ key_type ++ " " ++ key).data) :
    ProperLine (hostKeyEntry host key key_type) := by
  refine ⟨(host ++ " " ++ key_type ++ " " ++ key).data, ?_, hentry⟩
  unfold hostKeyEntry
  rw [String.data_append]

/-- C9: on an existing well-formed trust-store file, `ssh_add_host_key`
rewrites the first line whose first token equals the host token in place
(leaving the line count unchanged), and otherwise appends exactly the single
new entry (increasing the line count by exactly one) — so a single
invocation never introduces a duplicate host token of its own. -/
theorem ssh_add_host_key_line_count (c : String) (host key key_type : String)
    (hproper : ∀ l ∈ pyReadlines c, ProperLine l)
    (hentry : '\n' ∉ (host ++ " " ++ key_type ++ " " ++ key).data) :
    (∀ i, (pyReadlines c).findIdx? (hostKeyLineMatches host) = some i →
      pyReadlines (ssh_add_host_key (some c) host key key_type).1 =
        (pyReadlines c).set i (hostKeyEntry host key key_type) ∧
      (pyReadlines (ssh_add_host_key (some c) host key key_type).1).length =
        (pyReadlines c).length) ∧
    ((pyReadlines c).findIdx? (hostKeyLineMatches host) = none →
      (ssh_add_host_key (some c) host key key_type).1 =
        c ++ hostKeyEntry host key key_type ∧
      pyReadlines (ssh_add_host_key (some c) host key key_type).1 =
        pyReadlines c ++ [hostKeyEntry host key key_type] ∧
      (pyReadlines (ssh_add_host_key (some c) host key key_type).1).length =
        (pyReadlines c).length + 1) := by
  have hpe : ProperLine (hostKeyEntry host key key_type) :=
    properLine_hostKeyEntry host key key_type hentry
  constructor
  · intro i hfind
    have hred : (ssh_add_host_key (some c) host key key_type).1 =
        pyWritelines ((pyReadlines c).set i (hostKeyEntry host key key_type)) := by
      unfold ssh_add_host_key
      dsimp only
      rw [hfind]
    have hset : ∀ l ∈ (pyReadlines c).set i (hostKeyEntry host key key_type),
        ProperLine l := by
      intro l hl
      rcases List.mem_or_eq_of_mem_set hl with h | h
      · exact hproper l h
      · rw [h]
        exact hpe
    rw [hred, readlines_writelines _ hset]
    exact ⟨rfl, by rw [List.length_set]⟩
  · intro hfind
    have hred : (ssh_add_host_key (some c) host key key_type).1 =
        c ++ hostKeyEntry host key key_type := by
      unfold ssh_add_host_key
      dsimp only
      rw [hfind]
    have happ : pyReadlines (c ++ hostKeyEntry host key key_type) =
        pyReadlines c ++ [hostKeyEntry host key key_type] := by
      obtain ⟨body, hb, hnb⟩ := hpe
      rw [show pyReadlines (c ++ hostKeyEntry host key key_type) =
        (linesAux (c ++ hostKeyEntry host key key_type).data []).map
          (fun l => String.mk l) from rfl]
      have hdata : (c ++ hostKeyEntry host key key_type).data =
          ((pyReadlines c).map String.data).flatten ++ (body ++ '\n' :: []) := by
        rw [String.data_append, flatten_pyReadlines, hb]
      rw [hdata]
      have hLP : ∀ l ∈ (pyReadlines c).map String.data, ProperData l := by
        intro l hl
        rw [List.mem_map] at hl
        obtain ⟨s, hs, rfl⟩ := hl
        exact hproper s hs
      rw [linesAux_flatten _ hLP (body ++ '\n' :: []), linesAux_body body [] [] hnb]
      have h0 : linesAux [] ([] : List Char) = [] := rfl
      simp only [List.reverse_nil, List.nil_append, h0]
      rw [List.map_append, List.map_map]
      have hcomp : ((fun l => String.mk l) ∘ String.data) = id := by
        funext s
        exact string_mk_data s
      rw [hcomp, List.map_id]
      have hmk : String.mk (body ++ ['\n']) = hostKeyEntry host key key_type := by
        rw [show body ++ ['\n'] = (hostKeyEntry host key key_type).data from hb.symm]
      simp [hmk]
    refine ⟨hred, ?_, ?_⟩
    · rw [hred]
      exact happ
    · rw [hred, happ]
      simp

/-- Witness for C9: adding a key for a new host to a one-line store appends
exactly the entry and the line count goes from 1 to 2. -/
theorem ssh_add_host_key_line_count_witness :
    (ssh_add_host_key (some "h1 ssh-rsa AAA\n") "h2" "CCC" "ssh-ed25519").1 =
      "h1 ssh-rsa AAA\n" ++ hostKeyEntry "h2" "CCC" "ssh-ed25519" ∧
    pyReadlines (ssh_add_host_key (some "h1 ssh-rsa AAA\n") "h2" "CCC" "ssh-ed25519").1 =
      pyReadlines "h1 ssh-rsa AAA\n" ++ [hostKeyEntry "h2" "CCC" "ssh-ed25519"] ∧
    (pyReadlines
        (ssh_add_host_key (some "h1 ssh-rsa AAA\n") "h2" "CCC" "ssh-ed25519").1).length =
      (pyReadlines "h1 ssh-rsa AAA\n").length + 1 :=
  (ssh_add_host_key_line_count "h1 ssh-rsa AAA\n" "h2" "CCC" "ssh-ed25519"
    (by
      intro l hl
      rw [show pyReadlines "h1 ssh-rsa AAA\n" = ["h1 ssh-rsa AAA\n"] from by decide] at hl
      rw [List.mem_singleton] at hl
      subst hl
      exact ⟨"h1 ssh-rsa AAA".data, by decide, by decide⟩)
    (by decide)).2 (by decide)

end SSHSpec
